import Mathlib

/-!
Verification of the model-acquisition-and-quantization pipeline of
`quantize.py` (repository jwalith/Quantized-LLM).

The script is shallowly embedded as a deterministic state-transition
function.  Filesystem paths are lists of components; the filesystem is a
pair of lists (existing directories, existing files).  Every externally
visible action (directory creation, the Hugging Face snapshot download,
and each spawned process together with its `[RUN]` log line) is recorded
in an event trace.  The outcomes of the three blocking external
operations (network fetch, converter process, quantizer process) are
supplied by an environment oracle `Env`; everything else is determined by
the initial filesystem.

The embedding follows the source line by line: the module preamble
(logging setup and the `print` of `ROOT_DIR` are pure console output and
are not traced) creates the Android assets directory, then runs the two
preflight checks, then creates the artifacts directory; `main` creates
the snapshot directory, downloads, checks for the converter script,
and invokes the converter and the quantizer through the `run` helper.
An uncaught Python exception terminates the interpreter with exit
status 1; a completed `main` yields exit status 0.
-/

namespace Quantize

/-- A filesystem path, as its list of components (the source resolves
`ROOT_DIR` to an absolute path; we keep the root abstract as a component
list). -/
abbrev Path := List String

/-- Rendering of a `pathlib.Path` as the string `str(p)` used in command
argument lists. -/
def strPath (p : Path) : String := String.intercalate "/" p

/-- All (non-empty) initial segments of a path: the directories that
`mkdir(parents=True)` has to ensure exist, innermost last. -/
def ancestors (p : Path) : List Path :=
  (List.range p.length).map (fun k => p.take (k + 1))

/-- The filesystem state: which paths exist as directories and which as
files.  Membership is all the pipeline ever observes. -/
structure FS where
  dirs : List Path
  files : List Path
deriving DecidableEq

/-- `Path.mkdir(parents=True, exist_ok=True)`: succeeds (creating every
missing initial segment as a directory) unless some initial segment of
the target exists as a file, in which case Python raises
`FileExistsError`/`NotADirectoryError`. -/
def mkdirParents (fs : FS) (p : Path) : Option FS :=
  if ∀ q ∈ ancestors p, q ∉ fs.files then
    some (FS.mk (ancestors p ++ fs.dirs) fs.files)
  else none

/-- Observable events of a run, in order. -/
inductive Event where
  /-- a `mkdir(parents=True, exist_ok=True)` call on the given path -/
  | mkdirE (p : Path)
  /-- `snapshot_download(repo_id=..., local_dir=...)` — a network fetch -/
  | download (repoId : String) (localDir : Path)
  /-- a `logger.info` line emitted by the `run` helper -/
  | log (msg : String)
  /-- `subprocess.run(cmd, check=True)` — a spawned process -/
  | spawn (cmd : List String)
deriving DecidableEq

/-- The exceptions the script can raise (uncaught, hence fatal). -/
inductive PyError where
  /-- `FileExistsError`/`NotADirectoryError` from a `mkdir` call -/
  | mkdirFailed (p : Path)
  /-- line 41: `FileNotFoundError` — llama.cpp directory missing -/
  | dirMissing (msg : String)
  /-- line 45: `FileNotFoundError` — llama-quantize binary missing -/
  | binMissing (msg : String)
  /-- line 66: `FileNotFoundError` — convert script missing -/
  | scriptMissing (msg : String)
  /-- any network/auth/not-found error from `snapshot_download` -/
  | downloadError
  /-- `subprocess.CalledProcessError` with the command and its exit status -/
  | calledProcessError (cmd : List String) (returncode : Nat)
deriving DecidableEq

/-- Result of running (a stage of) the script: final filesystem, event
trace, and the uncaught exception if one was raised. -/
structure StepRes where
  fs : FS
  trace : List Event
  err : Option PyError
deriving DecidableEq

/-- Outcomes of the three blocking external operations, supplied by the
environment: whether the snapshot download succeeds, the exit statuses
of the converter and quantizer processes, and the files of the remote
model snapshot (as paths relative to the destination directory) that a
successful download writes locally. -/
structure Env where
  downloadOk : Bool
  convertExit : Nat
  quantExit : Nat
  snapshotFiles : List Path
deriving DecidableEq

/-! ### The configuration block (lines 22–37), parameterized

`ROOT_DIR` is the resolved directory of the script and `sys.executable`
the interpreter path; both are kept abstract.  `MODEL_NAME`/`MODEL_ID`
are the `=== EDIT THESE ===` configuration; path definitions are
parameterized over them so that runs under different configured model
identifiers can be compared, and the source's concrete values are given
below. -/

/-- line 24: `LLAMA_CPP_DIR = ROOT_DIR / "llama.cpp"` -/
def LLAMA_CPP_DIR (root : Path) : Path := root ++ ["llama.cpp"]

/-- line 25: `ARTIFICATS_DIR = LLAMA_CPP_DIR / "artifacts"` -/
def ARTIFICATS_DIR (root : Path) : Path := LLAMA_CPP_DIR root ++ ["artifacts"]

/-- line 26: `quant_bin = LLAMA_CPP_DIR / "build" / "bin" / "llama-quantize"` -/
def quant_bin (root : Path) : Path := LLAMA_CPP_DIR root ++ ["build", "bin", "llama-quantize"]

/-- line 31: `MODEL_NAME = "Qwen2.5-1.5B-Instruct"` -/
def MODEL_NAME : String := "Qwen2.5-1.5B-Instruct"

/-- line 32: `MODEL_ID = "Qwen/" + MODEL_NAME` -/
def MODEL_ID : String := "Qwen/" ++ MODEL_NAME

/-- line 33: `GGUF_F16_MODEL_PATH = ARTIFICATS_DIR / f"{MODEL_NAME}_Q4_K_M.gguf"` -/
def GGUF_F16_MODEL_PATH (root : Path) (modelName : String) : Path :=
  ARTIFICATS_DIR root ++ [modelName ++ "_Q4_K_M.gguf"]

/-- line 35: `ANDROID_ASSETS_DIR = ROOT_DIR / "llama.cpp/examples/llama.android/app/src/main/assets/models"` -/
def ANDROID_ASSETS_DIR (root : Path) : Path :=
  root ++ ["llama.cpp", "examples", "llama.android", "app", "src", "main", "assets", "models"]

/-- line 37: `GGUF_Q4_MODEL_PATH = ANDROID_ASSETS_DIR / f"{MODEL_NAME}_Q4_K_M.gguf"` -/
def GGUF_Q4_MODEL_PATH (root : Path) (modelName : String) : Path :=
  ANDROID_ASSETS_DIR root ++ [modelName ++ "_Q4_K_M.gguf"]

/-- line 58: `hf_dir = ARTIFICATS_DIR / "hf_model"` -/
def hf_dir (root : Path) : Path := ARTIFICATS_DIR root ++ ["hf_model"]

/-- line 64: `hf_to_gguf_convert_script = LLAMA_CPP_DIR / "convert_hf_to_gguf.py"` -/
def hf_to_gguf_convert_script (root : Path) : Path :=
  LLAMA_CPP_DIR root ++ ["convert_hf_to_gguf.py"]

/-- Message of the line-41 `FileNotFoundError`. -/
def dirMissingMsg (root : Path) : String :=
  "llama.cpp not found at " ++ strPath (LLAMA_CPP_DIR root)

/-- Message of the line-45 `FileNotFoundError`; it embeds the build
command the operator should run. -/
def binMissingMsg (root : Path) : String :=
  "llama-quantize binary not found. Build llama.cpp (`cd " ++
    strPath (LLAMA_CPP_DIR root) ++
    " && cmake -B build && cmake --build build --config Release`)."

/-- Message of the line-66 `FileNotFoundError`. -/
def scriptMissingMsg (root : Path) : String :=
  "convert script not found at " ++ strPath (hf_to_gguf_convert_script root) ++
    ". Clone llama.cpp and ensure script is present."

/-- lines 69–75: the converter argument list `cmd_convert`, for a
configured `modelName`. -/
def cmd_convert (pyExe : String) (root : Path) (modelName : String) : List String :=
  [pyExe, strPath (hf_to_gguf_convert_script root), strPath (hf_dir root),
   "--outfile", strPath (GGUF_F16_MODEL_PATH root modelName),
   "--outtype", "f16"]

/-- lines 79–84: the quantizer argument list `cmd_quant`, for a
configured `modelName`. -/
def cmd_quant (root : Path) (modelName : String) : List String :=
  [strPath (quant_bin root), strPath (GGUF_F16_MODEL_PATH root modelName),
   strPath (GGUF_Q4_MODEL_PATH root modelName), "Q4_K_M"]

/-- lines 49–52: the `run` helper.  It logs the space-joined command
line, then spawns the process; `check=True` raises
`CalledProcessError` exactly on a non-zero exit status.  Returns the
events it emits and the error, if any. -/
def runCmd (exitStatus : Nat) (cmd : List String) : List Event × Option PyError :=
  ([Event.log ("[RUN] " ++ String.intercalate " " cmd), Event.spawn cmd],
   if exitStatus = 0 then none else some (PyError.calledProcessError cmd exitStatus))

/-- Modelled from the spec: the external converter and quantizer are not
part of this repository; §4.4/§4.5 give their postcondition on exit
status 0 — the file at the requested output path exists afterwards. -/
def writeFile (fs : FS) (out : Path) : FS := FS.mk fs.dirs (out :: fs.files)

/-- Modelled from the spec: `snapshot_download` is a library call whose
implementation is not part of this repository; §4.3 gives its
postcondition on success — the destination directory contains all files
of the model snapshot.  The environment oracle supplies those files as
paths relative to the destination; a successful download writes each of
them under `hf_dir`. -/
def downloadWrites (root : Path) (snapshotFiles : List Path) (fs : FS) : FS :=
  FS.mk fs.dirs (snapshotFiles.map (fun r => hf_dir root ++ r) ++ fs.files)

/-- The module preamble, lines 35–47: create `ANDROID_ASSETS_DIR`
(line 36), check that `LLAMA_CPP_DIR` is a directory (line 40), check
that `quant_bin` exists (line 44), create `ARTIFICATS_DIR` (line 47). -/
def moduleInit (root : Path) (fs0 : FS) : StepRes :=
  match mkdirParents fs0 (ANDROID_ASSETS_DIR root) with
  | none =>
      StepRes.mk fs0 [Event.mkdirE (ANDROID_ASSETS_DIR root)]
        (some (PyError.mkdirFailed (ANDROID_ASSETS_DIR root)))
  | some fs1 =>
      if LLAMA_CPP_DIR root ∈ fs1.dirs then
        if quant_bin root ∈ fs1.dirs ∨ quant_bin root ∈ fs1.files then
          match mkdirParents fs1 (ARTIFICATS_DIR root) with
          | none =>
              StepRes.mk fs1
                [Event.mkdirE (ANDROID_ASSETS_DIR root), Event.mkdirE (ARTIFICATS_DIR root)]
                (some (PyError.mkdirFailed (ARTIFICATS_DIR root)))
          | some fs2 =>
              StepRes.mk fs2
                [Event.mkdirE (ANDROID_ASSETS_DIR root), Event.mkdirE (ARTIFICATS_DIR root)]
                none
        else
          StepRes.mk fs1 [Event.mkdirE (ANDROID_ASSETS_DIR root)]
            (some (PyError.binMissing (binMissingMsg root)))
      else
        StepRes.mk fs1 [Event.mkdirE (ANDROID_ASSETS_DIR root)]
          (some (PyError.dirMissing (dirMissingMsg root)))

/-- `main()`, lines 54–89: create the snapshot directory, download the
snapshot, check for the converter script, run the converter, run the
quantizer.  `modelName`/`modelId` are the configured `MODEL_NAME` and
`MODEL_ID`. -/
def mainRun (pyExe : String) (root : Path) (modelName modelId : String) (env : Env) (fs : FS) : StepRes :=
  match mkdirParents fs (hf_dir root) with
  | none =>
      StepRes.mk fs [Event.mkdirE (hf_dir root)] (some (PyError.mkdirFailed (hf_dir root)))
  | some fs1 =>
      if env.downloadOk then
        let fs2 := downloadWrites root env.snapshotFiles fs1
        if hf_to_gguf_convert_script root ∈ fs2.dirs ∨
              hf_to_gguf_convert_script root ∈ fs2.files then
            match runCmd env.convertExit (cmd_convert pyExe root modelName) with
            | (evC, some e) =>
                StepRes.mk fs2
                  ([Event.mkdirE (hf_dir root), Event.download modelId (hf_dir root)] ++ evC)
                  (some e)
            | (evC, none) =>
                match runCmd env.quantExit (cmd_quant root modelName) with
                | (evQ, some e) =>
                    StepRes.mk (writeFile fs2 (GGUF_F16_MODEL_PATH root modelName))
                      ([Event.mkdirE (hf_dir root), Event.download modelId (hf_dir root)] ++
                        evC ++ evQ)
                      (some e)
                | (evQ, none) =>
                    StepRes.mk
                      (writeFile (writeFile fs2 (GGUF_F16_MODEL_PATH root modelName))
                        (GGUF_Q4_MODEL_PATH root modelName))
                      ([Event.mkdirE (hf_dir root), Event.download modelId (hf_dir root)] ++
                        evC ++ evQ)
                      none
          else
            StepRes.mk fs2
              [Event.mkdirE (hf_dir root), Event.download modelId (hf_dir root)]
              (some (PyError.scriptMissing (scriptMissingMsg root)))
      else
        StepRes.mk fs1
          [Event.mkdirE (hf_dir root), Event.download modelId (hf_dir root)]
          (some PyError.downloadError)

/-- The whole script run as `python quantize.py` with a configured
model name/id: the module preamble, then (if it raised nothing) `main()`
under the `__main__` guard. -/
def program (pyExe : String) (root : Path) (modelName modelId : String) (env : Env) (fs0 : FS) : StepRes :=
  match (moduleInit root fs0).err with
  | some e => StepRes.mk (moduleInit root fs0).fs (moduleInit root fs0).trace (some e)
  | none =>
      StepRes.mk (mainRun pyExe root modelName modelId env (moduleInit root fs0).fs).fs
        ((moduleInit root fs0).trace ++
          (mainRun pyExe root modelName modelId env (moduleInit root fs0).fs).trace)
        (mainRun pyExe root modelName modelId env (moduleInit root fs0).fs).err

/-- The script exactly as configured in the source: model name
`Qwen2.5-1.5B-Instruct`, model id `Qwen/Qwen2.5-1.5B-Instruct`. -/
def quantize_py (pyExe : String) (root : Path) (env : Env) (fs0 : FS) : StepRes :=
  program pyExe root MODEL_NAME MODEL_ID env fs0

/-- The process exit status: a completed run exits 0; an uncaught Python
exception makes the interpreter exit with status 1. -/
def exitCode (r : StepRes) : Nat :=
  match r.err with
  | none => 0
  | some _ => 1

/-- An event is an external call in the sense of the spec's error
taxonomy: a network fetch or a spawned process. -/
def externalCall : Event → Bool
  | Event.download _ _ => true
  | Event.spawn _ => true
  | _ => false

/-- The spawned-process commands of a trace, in order. -/
def spawns (t : List Event) : List (List String) :=
  t.filterMap (fun e => match e with | Event.spawn c => some c | _ => none)

/-- The destination directories of the download events of a trace. -/
def downloadDests (t : List Event) : List Path :=
  t.filterMap (fun e => match e with | Event.download _ d => some d | _ => none)

/-- The preflight configuration errors (lines 41 and 45). -/
def preflightErr : Option PyError → Bool
  | some (PyError.dirMissing _) => true
  | some (PyError.binMissing _) => true
  | _ => false

/-- The configuration errors of the spec's taxonomy: a required
directory, binary or script is missing. -/
def configErr : Option PyError → Bool
  | some (PyError.dirMissing _) => true
  | some (PyError.binMissing _) => true
  | some (PyError.scriptMissing _) => true
  | _ => false

/-- Whether an outcome is the line-41 toolchain-directory-missing
error. -/
def isDirMissing : Option PyError → Bool
  | some (PyError.dirMissing _) => true
  | _ => false

/-- `q` lies strictly under directory `d` (is a proper descendant). -/
abbrev strictlyUnder (d q : Path) : Prop := d ∈ ancestors q ∧ q ≠ d

/-! ### Concrete fixtures for witness runs -/

/-- A concrete script directory for witness runs. -/
def wroot : Path := ["r"]

/-- A filesystem holding everything the pipeline needs: the script
directory, the quantizer binary and the converter script. -/
def fullFS : FS := FS.mk [["r"]] [quant_bin wroot, hf_to_gguf_convert_script wroot]

/-- A filesystem with only the script directory: no toolchain at all. -/
def bareFS : FS := FS.mk [["r"]] []

/-- A filesystem with the quantizer binary but no converter script. -/
def noScriptFS : FS := FS.mk [["r"]] [quant_bin wroot]

/-- The environment in which every external operation succeeds and the
snapshot holds one file, `config.json`. -/
def okEnv : Env := Env.mk true 0 0 [["config.json"]]

/-- An environment in which the converter exits with status 2. -/
def convFailEnv : Env := Env.mk true 2 0 [["config.json"]]

/-! ### Helper lemmas about `ancestors` and `mkdirParents` -/

lemma mem_ancestors_iff {q p : Path} :
    q ∈ ancestors p ↔ ∃ k, k < p.length ∧ q = p.take (k + 1) := by
  simp [ancestors, List.mem_map, List.mem_range, eq_comm]

lemma self_mem_ancestors {p : Path} (h : p ≠ []) : p ∈ ancestors p := by
  have hl : 0 < p.length := List.length_pos.mpr h
  rw [mem_ancestors_iff]
  refine ⟨p.length - 1, by omega, ?_⟩
  rw [Nat.sub_add_cancel hl, List.take_length]

lemma ancestors_append_subset (p s : Path) : ancestors p ⊆ ancestors (p ++ s) := by
  intro q hq
  rw [mem_ancestors_iff] at hq ⊢
  obtain ⟨k, hk, hq⟩ := hq
  refine ⟨k, ?_, ?_⟩
  · simp only [List.length_append]
    omega
  · rw [hq, List.take_append_of_le_length (by omega)]

lemma mem_ancestors_length_le {q p : Path} (h : q ∈ ancestors p) : q.length ≤ p.length := by
  rw [mem_ancestors_iff] at h
  obtain ⟨k, hk, hq⟩ := h
  rw [hq]
  simp only [List.length_take]
  omega

/-- An initial segment of `r ++ q` that extends `r` is `r` followed by an
initial segment of `q`. -/
lemma append_mem_ancestors_append {r p q : Path} (hp : p ≠ [])
    (h : r ++ p ∈ ancestors (r ++ q)) : ∃ j, j < q.length ∧ p = q.take (j + 1) := by
  rw [mem_ancestors_iff] at h
  obtain ⟨k, hk, hq⟩ := h
  have hlen : (r ++ p).length = k + 1 := by
    rw [hq]
    simp only [List.length_take, List.length_append]
    simp only [List.length_append] at hk
    omega
  have hplen : 0 < p.length := List.length_pos.mpr hp
  simp only [List.length_append] at hlen
  refine ⟨k - r.length, ?_, ?_⟩
  · simp only [List.length_append] at hk
    omega
  · have hk1 : k + 1 = r.length + (k - r.length + 1) := by omega
    rw [hk1, List.take_append] at hq
    exact List.append_cancel_left hq

lemma assets_eq (root : Path) :
    ANDROID_ASSETS_DIR root =
      LLAMA_CPP_DIR root ++
        ["examples", "llama.android", "app", "src", "main", "assets", "models"] := by
  simp [ANDROID_ASSETS_DIR, LLAMA_CPP_DIR]

lemma quant_bin_eq (root : Path) :
    quant_bin root = LLAMA_CPP_DIR root ++ ["build", "bin", "llama-quantize"] := rfl

lemma script_eq (root : Path) :
    hf_to_gguf_convert_script root = LLAMA_CPP_DIR root ++ ["convert_hf_to_gguf.py"] := rfl

lemma hf_dir_eq (root : Path) :
    hf_dir root = LLAMA_CPP_DIR root ++ ["artifacts", "hf_model"] := by
  simp [hf_dir, ARTIFICATS_DIR]

lemma llama_ne_nil (root : Path) : LLAMA_CPP_DIR root ≠ [] := by
  simp [LLAMA_CPP_DIR]

/-- The toolchain root is among the directories the asset-directory
`mkdir(parents=True)` creates. -/
lemma llama_mem_ancestors_assets (root : Path) :
    LLAMA_CPP_DIR root ∈ ancestors (ANDROID_ASSETS_DIR root) := by
  rw [assets_eq]
  exact ancestors_append_subset _ _ (self_mem_ancestors (llama_ne_nil root))

lemma artifacts_ancestors_subset_hf (root : Path) :
    ancestors (ARTIFICATS_DIR root) ⊆ ancestors (hf_dir root) := by
  rw [show hf_dir root = ARTIFICATS_DIR root ++ ["hf_model"] from rfl]
  exact ancestors_append_subset _ _

lemma quant_bin_not_mem_ancestors_assets (root : Path) :
    quant_bin root ∉ ancestors (ANDROID_ASSETS_DIR root) := by
  intro h
  rw [quant_bin_eq, assets_eq] at h
  obtain ⟨j, hj, heq⟩ := append_mem_ancestors_append (by simp) h
  rw [List.take_succ_cons] at heq
  have hb : ("build" : String) = "examples" := (List.cons.injEq _ _ _ _ ▸ heq).1
  exact absurd hb (by decide)

lemma script_not_mem_ancestors_hf (root : Path) :
    hf_to_gguf_convert_script root ∉ ancestors (hf_dir root) := by
  intro h
  rw [script_eq, hf_dir_eq] at h
  obtain ⟨j, hj, heq⟩ := append_mem_ancestors_append (by simp) h
  rw [List.take_succ_cons] at heq
  have hb : ("convert_hf_to_gguf.py" : String) = "artifacts" := (List.cons.injEq _ _ _ _ ▸ heq).1
  exact absurd hb (by decide)

/-- The converter script path is never one of the files a download
writes under the snapshot directory: any such file is strictly longer. -/
lemma script_not_mem_snapshot (root : Path) (sf : List Path) :
    hf_to_gguf_convert_script root ∉ sf.map (fun r => hf_dir root ++ r) := by
  intro h
  rw [List.mem_map] at h
  obtain ⟨r, _, heq⟩ := h
  have hlen := congrArg List.length heq
  simp only [List.length_append, hf_dir, ARTIFICATS_DIR, LLAMA_CPP_DIR,
    hf_to_gguf_convert_script, List.length_append, List.length_cons,
    List.length_singleton] at hlen
  omega

/-- The line-65 script check reads the post-download filesystem, but the
downloaded snapshot files can never satisfy it. -/
lemma downloadWrites_script_check (root : Path) (sf : List Path) (fs1 : FS) :
    (hf_to_gguf_convert_script root ∈ (downloadWrites root sf fs1).dirs ∨
      hf_to_gguf_convert_script root ∈ (downloadWrites root sf fs1).files) ↔
    (hf_to_gguf_convert_script root ∈ fs1.dirs ∨
      hf_to_gguf_convert_script root ∈ fs1.files) := by
  unfold downloadWrites
  constructor
  · rintro (h | h)
    · exact Or.inl h
    · rcases List.mem_append.mp h with h1 | h1
      · exact absurd h1 (script_not_mem_snapshot root sf)
      · exact Or.inr h1
  · rintro (h | h)
    · exact Or.inl h
    · exact Or.inr (List.mem_append.mpr (Or.inr h))

lemma mkdirParents_pos {fs : FS} {p : Path} (h : ∀ q ∈ ancestors p, q ∉ fs.files) :
    mkdirParents fs p = some (FS.mk (ancestors p ++ fs.dirs) fs.files) := by
  unfold mkdirParents
  rw [if_pos h]

lemma mkdirParents_mk_pos {f : List Path} {p : Path} (h : ∀ q ∈ ancestors p, q ∉ f)
    (d : List Path) :
    mkdirParents (FS.mk d f) p = some (FS.mk (ancestors p ++ d) f) := by
  unfold mkdirParents
  rw [if_pos h]

lemma mkdirParents_some {fs fs' : FS} {p : Path} (h : mkdirParents fs p = some fs') :
    fs'.files = fs.files ∧ fs'.dirs = ancestors p ++ fs.dirs := by
  unfold mkdirParents at h
  split at h
  · cases h
    exact ⟨rfl, rfl⟩
  · cases h

/-! ### Branch equations for `moduleInit`, `mainRun` and `program` -/

/-- The preamble when the quantizer binary exists and no file blocks the
two `mkdir` calls. -/
lemma moduleInit_success {root : Path} {fs0 : FS}
    (hA : ∀ q ∈ ancestors (ANDROID_ASSETS_DIR root), q ∉ fs0.files)
    (hR : ∀ q ∈ ancestors (ARTIFICATS_DIR root), q ∉ fs0.files)
    (hbin : quant_bin root ∈ fs0.dirs ∨ quant_bin root ∈ fs0.files) :
    moduleInit root fs0 =
      StepRes.mk
        (FS.mk
          (ancestors (ARTIFICATS_DIR root) ++ (ancestors (ANDROID_ASSETS_DIR root) ++ fs0.dirs))
          fs0.files)
        [Event.mkdirE (ANDROID_ASSETS_DIR root), Event.mkdirE (ARTIFICATS_DIR root)] none := by
  unfold moduleInit
  rw [mkdirParents_pos hA]
  have hL : LLAMA_CPP_DIR root ∈
      (FS.mk (ancestors (ANDROID_ASSETS_DIR root) ++ fs0.dirs) fs0.files).dirs :=
    List.mem_append.mpr (Or.inl (llama_mem_ancestors_assets root))
  rcases hbin with hd | hf
  · simp [mkdirParents_mk_pos hR, hL, hd]
  · simp [mkdirParents_mk_pos hR, hL, hf]

/-- The preamble when the quantizer binary is absent (and no file blocks
the asset-directory `mkdir`): the line-45 `FileNotFoundError` is raised,
not the line-41 one, because the `mkdir` of line 36 has just created the
toolchain root. -/
lemma moduleInit_binMissing {root : Path} {fs0 : FS}
    (hA : ∀ q ∈ ancestors (ANDROID_ASSETS_DIR root), q ∉ fs0.files)
    (hbinD : quant_bin root ∉ fs0.dirs) (hbinF : quant_bin root ∉ fs0.files) :
    moduleInit root fs0 =
      StepRes.mk (FS.mk (ancestors (ANDROID_ASSETS_DIR root) ++ fs0.dirs) fs0.files)
        [Event.mkdirE (ANDROID_ASSETS_DIR root)]
        (some (PyError.binMissing (binMissingMsg root))) := by
  unfold moduleInit
  rw [mkdirParents_pos hA]
  have hL : LLAMA_CPP_DIR root ∈
      (FS.mk (ancestors (ANDROID_ASSETS_DIR root) ++ fs0.dirs) fs0.files).dirs :=
    List.mem_append.mpr (Or.inl (llama_mem_ancestors_assets root))
  simp [hL, hbinD, hbinF, quant_bin_not_mem_ancestors_assets root]

lemma program_eq_of_err {root : Path} {fs0 : FS} {e : PyError}
    (pyExe : String) (modelName modelId : String) (env : Env)
    (h : (moduleInit root fs0).err = some e) :
    program pyExe root modelName modelId env fs0 =
      StepRes.mk (moduleInit root fs0).fs (moduleInit root fs0).trace (some e) := by
  unfold program
  rw [h]

lemma program_eq_of_ok {root : Path} {fs0 : FS}
    (pyExe : String) (modelName modelId : String) (env : Env)
    (h : (moduleInit root fs0).err = none) :
    program pyExe root modelName modelId env fs0 =
      StepRes.mk (mainRun pyExe root modelName modelId env (moduleInit root fs0).fs).fs
        ((moduleInit root fs0).trace ++
          (mainRun pyExe root modelName modelId env (moduleInit root fs0).fs).trace)
        (mainRun pyExe root modelName modelId env (moduleInit root fs0).fs).err := by
  unfold program
  rw [h]

/-- Every event the module preamble emits is one of its two `mkdir`
calls. -/
lemma moduleInit_events (root : Path) (fs0 : FS) :
    ∀ e ∈ (moduleInit root fs0).trace,
      e = Event.mkdirE (ANDROID_ASSETS_DIR root) ∨ e = Event.mkdirE (ARTIFICATS_DIR root) := by
  intro e he
  unfold moduleInit at he
  cases h : mkdirParents fs0 (ANDROID_ASSETS_DIR root) with
  | none => rw [h] at he; simp at he; simp [he]
  | some fs1 =>
      rw [h] at he
      by_cases hL : LLAMA_CPP_DIR root ∈ fs1.dirs <;>
        by_cases hB : (quant_bin root ∈ fs1.dirs ∨ quant_bin root ∈ fs1.files) <;>
        simp only [hL, hB, if_true, if_false] at he
      · cases h2 : mkdirParents fs1 (ARTIFICATS_DIR root) with
        | none => rw [h2] at he; simp at he; tauto
        | some fs2 => rw [h2] at he; simp at he; tauto
      · simp at he; tauto
      · simp at he; tauto
      · simp at he; tauto

/-- Every event `main()` emits is the snapshot `mkdir`, the download, or
a log/spawn of one of the two fixed commands. -/
lemma mainRun_events (pyExe : String) (root : Path) (modelName modelId : String)
    (env : Env) (fs : FS) :
    ∀ e ∈ (mainRun pyExe root modelName modelId env fs).trace,
      e = Event.mkdirE (hf_dir root) ∨
      e = Event.download modelId (hf_dir root) ∨
      e = Event.log ("[RUN] " ++ String.intercalate " " (cmd_convert pyExe root modelName)) ∨
      e = Event.spawn (cmd_convert pyExe root modelName) ∨
      e = Event.log ("[RUN] " ++ String.intercalate " " (cmd_quant root modelName)) ∨
      e = Event.spawn (cmd_quant root modelName) := by
  intro e he
  unfold mainRun at he
  cases h : mkdirParents fs (hf_dir root) with
  | none => rw [h] at he; simp at he; simp [he]
  | some fs1 =>
      rw [h] at he
      simp only [downloadWrites_script_check] at he
      by_cases hd : env.downloadOk <;>
        by_cases hs : (hf_to_gguf_convert_script root ∈ fs1.dirs ∨
          hf_to_gguf_convert_script root ∈ fs1.files) <;>
        by_cases hc : env.convertExit = 0 <;>
        by_cases hq : env.quantExit = 0 <;>
        simp [hd, hs, hc, hq, runCmd] at he <;>
        tauto

/-- `main()` when every stage succeeds. -/
lemma mainRun_success {root : Path} {fs : FS} {env : Env}
    (pyExe modelName modelId : String)
    (hhf : ∀ q ∈ ancestors (hf_dir root), q ∉ fs.files)
    (hd : env.downloadOk = true)
    (hs : hf_to_gguf_convert_script root ∈ fs.dirs ∨ hf_to_gguf_convert_script root ∈ fs.files)
    (hc : env.convertExit = 0) (hq : env.quantExit = 0) :
    mainRun pyExe root modelName modelId env fs =
      StepRes.mk
        (FS.mk (ancestors (hf_dir root) ++ fs.dirs)
          (GGUF_Q4_MODEL_PATH root modelName :: GGUF_F16_MODEL_PATH root modelName ::
            (env.snapshotFiles.map (fun r => hf_dir root ++ r) ++ fs.files)))
        [Event.mkdirE (hf_dir root), Event.download modelId (hf_dir root),
         Event.log ("[RUN] " ++ String.intercalate " " (cmd_convert pyExe root modelName)),
         Event.spawn (cmd_convert pyExe root modelName),
         Event.log ("[RUN] " ++ String.intercalate " " (cmd_quant root modelName)),
         Event.spawn (cmd_quant root modelName)]
        none := by
  unfold mainRun
  rw [mkdirParents_pos hhf]
  simp only [downloadWrites_script_check]
  rcases hs with hs1 | hs1 <;> simp [hd, hc, hq, runCmd, writeFile, downloadWrites, hs1]

/-- `main()` when the converter script is absent: the configuration
error of line 66 is raised only after the download has happened. -/
lemma mainRun_scriptMissing {root : Path} {fs : FS} {env : Env}
    (pyExe modelName modelId : String)
    (hhf : ∀ q ∈ ancestors (hf_dir root), q ∉ fs.files)
    (hd : env.downloadOk = true)
    (hsD : hf_to_gguf_convert_script root ∉ fs.dirs)
    (hsF : hf_to_gguf_convert_script root ∉ fs.files) :
    mainRun pyExe root modelName modelId env fs =
      StepRes.mk (FS.mk (ancestors (hf_dir root) ++ fs.dirs)
          (env.snapshotFiles.map (fun r => hf_dir root ++ r) ++ fs.files))
        [Event.mkdirE (hf_dir root), Event.download modelId (hf_dir root)]
        (some (PyError.scriptMissing (scriptMissingMsg root))) := by
  unfold mainRun
  rw [mkdirParents_pos hhf]
  simp only [downloadWrites_script_check]
  simp [hd, hsD, hsF, downloadWrites, script_not_mem_ancestors_hf root]

/-- `main()` when the snapshot download fails. -/
lemma mainRun_downloadFail {root : Path} {fs : FS} {env : Env}
    (pyExe modelName modelId : String)
    (hhf : ∀ q ∈ ancestors (hf_dir root), q ∉ fs.files)
    (hd : env.downloadOk = false) :
    mainRun pyExe root modelName modelId env fs =
      StepRes.mk (FS.mk (ancestors (hf_dir root) ++ fs.dirs) fs.files)
        [Event.mkdirE (hf_dir root), Event.download modelId (hf_dir root)]
        (some PyError.downloadError) := by
  unfold mainRun
  rw [mkdirParents_pos hhf]
  simp [hd]

/-- `main()` when the converter exits with a non-zero status. -/
lemma mainRun_convertFail {root : Path} {fs : FS} {env : Env}
    (pyExe modelName modelId : String)
    (hhf : ∀ q ∈ ancestors (hf_dir root), q ∉ fs.files)
    (hd : env.downloadOk = true)
    (hs : hf_to_gguf_convert_script root ∈ fs.dirs ∨ hf_to_gguf_convert_script root ∈ fs.files)
    (hc : env.convertExit ≠ 0) :
    mainRun pyExe root modelName modelId env fs =
      StepRes.mk (FS.mk (ancestors (hf_dir root) ++ fs.dirs)
          (env.snapshotFiles.map (fun r => hf_dir root ++ r) ++ fs.files))
        [Event.mkdirE (hf_dir root), Event.download modelId (hf_dir root),
         Event.log ("[RUN] " ++ String.intercalate " " (cmd_convert pyExe root modelName)),
         Event.spawn (cmd_convert pyExe root modelName)]
        (some (PyError.calledProcessError (cmd_convert pyExe root modelName) env.convertExit)) := by
  unfold mainRun
  rw [mkdirParents_pos hhf]
  simp only [downloadWrites_script_check]
  rcases hs with hs1 | hs1 <;> simp [hd, hc, runCmd, downloadWrites, hs1]

/-- `main()` when the converter succeeds and the quantizer exits with a
non-zero status. -/
lemma mainRun_quantFail {root : Path} {fs : FS} {env : Env}
    (pyExe modelName modelId : String)
    (hhf : ∀ q ∈ ancestors (hf_dir root), q ∉ fs.files)
    (hd : env.downloadOk = true)
    (hs : hf_to_gguf_convert_script root ∈ fs.dirs ∨ hf_to_gguf_convert_script root ∈ fs.files)
    (hc : env.convertExit = 0) (hq : env.quantExit ≠ 0) :
    mainRun pyExe root modelName modelId env fs =
      StepRes.mk
        (FS.mk (ancestors (hf_dir root) ++ fs.dirs)
          (GGUF_F16_MODEL_PATH root modelName ::
            (env.snapshotFiles.map (fun r => hf_dir root ++ r) ++ fs.files)))
        [Event.mkdirE (hf_dir root), Event.download modelId (hf_dir root),
         Event.log ("[RUN] " ++ String.intercalate " " (cmd_convert pyExe root modelName)),
         Event.spawn (cmd_convert pyExe root modelName),
         Event.log ("[RUN] " ++ String.intercalate " " (cmd_quant root modelName)),
         Event.spawn (cmd_quant root modelName)]
        (some (PyError.calledProcessError (cmd_quant root modelName) env.quantExit)) := by
  unfold mainRun
  rw [mkdirParents_pos hhf]
  simp only [downloadWrites_script_check]
  rcases hs with hs1 | hs1 <;> simp [hd, hc, hq, runCmd, writeFile, downloadWrites, hs1]

/-- Exhaustive case analysis of the module preamble.  Notably the
line-41 `dirMissing` error appears in no branch: the `mkdir` of line 36
has already created `LLAMA_CPP_DIR` whenever the line-40 check runs. -/
lemma moduleInit_cases (root : Path) (fs0 : FS) :
    moduleInit root fs0 = StepRes.mk fs0 [Event.mkdirE (ANDROID_ASSETS_DIR root)]
        (some (PyError.mkdirFailed (ANDROID_ASSETS_DIR root))) ∨
    moduleInit root fs0 = StepRes.mk
        (FS.mk (ancestors (ANDROID_ASSETS_DIR root) ++ fs0.dirs) fs0.files)
        [Event.mkdirE (ANDROID_ASSETS_DIR root)]
        (some (PyError.binMissing (binMissingMsg root))) ∨
    moduleInit root fs0 = StepRes.mk
        (FS.mk (ancestors (ANDROID_ASSETS_DIR root) ++ fs0.dirs) fs0.files)
        [Event.mkdirE (ANDROID_ASSETS_DIR root), Event.mkdirE (ARTIFICATS_DIR root)]
        (some (PyError.mkdirFailed (ARTIFICATS_DIR root))) ∨
    moduleInit root fs0 = StepRes.mk
        (FS.mk (ancestors (ARTIFICATS_DIR root) ++
          (ancestors (ANDROID_ASSETS_DIR root) ++ fs0.dirs)) fs0.files)
        [Event.mkdirE (ANDROID_ASSETS_DIR root), Event.mkdirE (ARTIFICATS_DIR root)]
        none := by
  unfold moduleInit
  cases h : mkdirParents fs0 (ANDROID_ASSETS_DIR root) with
  | none => left; rfl
  | some fs1 =>
      obtain ⟨hf1, hd1⟩ := mkdirParents_some h
      obtain rfl : fs1 = FS.mk (ancestors (ANDROID_ASSETS_DIR root) ++ fs0.dirs) fs0.files := by
        cases fs1
        simp_all
      by_cases hB : (quant_bin root ∈ ancestors (ANDROID_ASSETS_DIR root) ∨
          quant_bin root ∈ fs0.dirs) ∨ quant_bin root ∈ fs0.files
      · cases h2 : mkdirParents (FS.mk (ancestors (ANDROID_ASSETS_DIR root) ++ fs0.dirs) fs0.files)
            (ARTIFICATS_DIR root) with
        | none =>
            right; right; left
            simp [llama_mem_ancestors_assets root, hB, h2]
        | some fs2 =>
            obtain ⟨hf2, hd2⟩ := mkdirParents_some h2
            obtain rfl : fs2 = FS.mk (ancestors (ARTIFICATS_DIR root) ++
                (ancestors (ANDROID_ASSETS_DIR root) ++ fs0.dirs)) fs0.files := by
              cases fs2
              simp_all
            right; right; right
            simp [llama_mem_ancestors_assets root, hB, h2]
      · right; left
        simp [llama_mem_ancestors_assets root, hB]

/-- Exhaustive case analysis of `main()`. -/
lemma mainRun_cases (pyExe : String) (root : Path) (modelName modelId : String)
    (env : Env) (fs : FS) :
    mainRun pyExe root modelName modelId env fs =
        StepRes.mk fs [Event.mkdirE (hf_dir root)]
          (some (PyError.mkdirFailed (hf_dir root))) ∨
    (mainRun pyExe root modelName modelId env fs =
        StepRes.mk (FS.mk (ancestors (hf_dir root) ++ fs.dirs) fs.files)
          [Event.mkdirE (hf_dir root), Event.download modelId (hf_dir root)]
          (some PyError.downloadError) ∧ env.downloadOk = false) ∨
    (mainRun pyExe root modelName modelId env fs =
        StepRes.mk (FS.mk (ancestors (hf_dir root) ++ fs.dirs)
            (env.snapshotFiles.map (fun r => hf_dir root ++ r) ++ fs.files))
          [Event.mkdirE (hf_dir root), Event.download modelId (hf_dir root)]
          (some (PyError.scriptMissing (scriptMissingMsg root))) ∧ env.downloadOk = true) ∨
    (mainRun pyExe root modelName modelId env fs =
        StepRes.mk (FS.mk (ancestors (hf_dir root) ++ fs.dirs)
            (env.snapshotFiles.map (fun r => hf_dir root ++ r) ++ fs.files))
          [Event.mkdirE (hf_dir root), Event.download modelId (hf_dir root),
           Event.log ("[RUN] " ++ String.intercalate " " (cmd_convert pyExe root modelName)),
           Event.spawn (cmd_convert pyExe root modelName)]
          (some (PyError.calledProcessError (cmd_convert pyExe root modelName) env.convertExit)) ∧
        env.downloadOk = true ∧ env.convertExit ≠ 0) ∨
    (mainRun pyExe root modelName modelId env fs =
        StepRes.mk (FS.mk (ancestors (hf_dir root) ++ fs.dirs)
            (GGUF_F16_MODEL_PATH root modelName ::
              (env.snapshotFiles.map (fun r => hf_dir root ++ r) ++ fs.files)))
          [Event.mkdirE (hf_dir root), Event.download modelId (hf_dir root),
           Event.log ("[RUN] " ++ String.intercalate " " (cmd_convert pyExe root modelName)),
           Event.spawn (cmd_convert pyExe root modelName),
           Event.log ("[RUN] " ++ String.intercalate " " (cmd_quant root modelName)),
           Event.spawn (cmd_quant root modelName)]
          (some (PyError.calledProcessError (cmd_quant root modelName) env.quantExit)) ∧
        env.downloadOk = true ∧ env.convertExit = 0 ∧ env.quantExit ≠ 0) ∨
    (mainRun pyExe root modelName modelId env fs =
        StepRes.mk (FS.mk (ancestors (hf_dir root) ++ fs.dirs)
            (GGUF_Q4_MODEL_PATH root modelName :: GGUF_F16_MODEL_PATH root modelName ::
              (env.snapshotFiles.map (fun r => hf_dir root ++ r) ++ fs.files)))
          [Event.mkdirE (hf_dir root), Event.download modelId (hf_dir root),
           Event.log ("[RUN] " ++ String.intercalate " " (cmd_convert pyExe root modelName)),
           Event.spawn (cmd_convert pyExe root modelName),
           Event.log ("[RUN] " ++ String.intercalate " " (cmd_quant root modelName)),
           Event.spawn (cmd_quant root modelName)]
          none ∧
        env.downloadOk = true ∧ env.convertExit = 0 ∧ env.quantExit = 0) := by
  unfold mainRun
  cases h : mkdirParents fs (hf_dir root) with
  | none => left; rfl
  | some fs1 =>
      obtain ⟨hf1, hd1⟩ := mkdirParents_some h
      obtain rfl : fs1 = FS.mk (ancestors (hf_dir root) ++ fs.dirs) fs.files := by
        cases fs1
        simp_all
      simp only [downloadWrites_script_check]
      by_cases hd : env.downloadOk <;>
        by_cases hsD : hf_to_gguf_convert_script root ∈ fs.dirs <;>
        by_cases hsF : hf_to_gguf_convert_script root ∈ fs.files <;>
        by_cases hc : env.convertExit = 0 <;>
        by_cases hq : env.quantExit = 0 <;>
        simp [hd, hsD, hsF, hc, hq, runCmd, writeFile, downloadWrites,
          script_not_mem_ancestors_hf root]

lemma spawns_append (a b : List Event) : spawns (a ++ b) = spawns a ++ spawns b :=
  List.filterMap_append a b _

lemma moduleInit_spawns (root : Path) (fs0 : FS) : spawns (moduleInit root fs0).trace = [] := by
  rcases moduleInit_cases root fs0 with hmi | hmi | hmi | hmi <;> rw [hmi] <;> rfl

lemma assets_ne_nil (root : Path) : ANDROID_ASSETS_DIR root ≠ [] := by
  simp [ANDROID_ASSETS_DIR]

/-- `main()` can raise download, script, process and `mkdir` errors, but
never one of the two preflight errors. -/
lemma mainRun_err_not_preflight (pyExe : String) (root : Path) (modelName modelId : String)
    (env : Env) (fs : FS) :
    preflightErr (mainRun pyExe root modelName modelId env fs).err = false := by
  rcases mainRun_cases pyExe root modelName modelId env fs with
    hmr | ⟨hmr, _⟩ | ⟨hmr, _⟩ | ⟨hmr, _⟩ | ⟨hmr, _⟩ | ⟨hmr, _⟩ <;> rw [hmr] <;> rfl

/-- The module preamble never raises the script-missing error. -/
lemma moduleInit_err_not_script (root : Path) (fs0 : FS) (m : String) :
    (moduleInit root fs0).err ≠ some (PyError.scriptMissing m) := by
  rcases moduleInit_cases root fs0 with hmi | hmi | hmi | hmi <;> rw [hmi] <;> simp

/-- Whenever a preflight error is raised, no external call has been
performed. -/
lemma preflight_no_external (pyExe : String) (root : Path) (modelName modelId : String)
    (env : Env) (fs0 : FS)
    (hp : preflightErr (program pyExe root modelName modelId env fs0).err = true) :
    ∀ e ∈ (program pyExe root modelName modelId env fs0).trace, externalCall e = false := by
  intro e he
  cases h : (moduleInit root fs0).err with
  | some e0 =>
      rw [program_eq_of_err pyExe modelName modelId env h] at he
      simp only [] at he
      rcases moduleInit_events root fs0 e he with rfl | rfl <;> rfl
  | none =>
      exfalso
      rw [program_eq_of_ok pyExe modelName modelId env h] at hp
      simp only [] at hp
      rw [mainRun_err_not_preflight pyExe root modelName modelId env (moduleInit root fs0).fs] at hp
      cases hp

/-- Whenever the script-missing error is raised, no process has been
spawned. -/
lemma script_err_no_spawn (pyExe : String) (root : Path) (modelName modelId : String)
    (env : Env) (fs0 : FS) (m : String)
    (hp : (program pyExe root modelName modelId env fs0).err = some (PyError.scriptMissing m)) :
    spawns (program pyExe root modelName modelId env fs0).trace = [] := by
  cases h : (moduleInit root fs0).err with
  | some e0 =>
      rw [program_eq_of_err pyExe modelName modelId env h] at hp
      simp only [] at hp
      cases hp
      exact absurd h (moduleInit_err_not_script root fs0 m)
  | none =>
      rw [program_eq_of_ok pyExe modelName modelId env h] at hp ⊢
      simp only [] at hp ⊢
      rw [spawns_append, moduleInit_spawns]
      rcases mainRun_cases pyExe root modelName modelId env (moduleInit root fs0).fs with
        hmr | ⟨hmr, _⟩ | ⟨hmr, _⟩ | ⟨hmr, _⟩ | ⟨hmr, _⟩ | ⟨hmr, _⟩ <;>
        rw [hmr] at hp ⊢ <;> simp_all [spawns, runCmd]

/-- Every download event of a run targets the fixed snapshot directory
`artifacts/hf_model`, whatever the configured model name and id are. -/
lemma program_downloadDests (pyExe : String) (root : Path) (modelName modelId : String)
    (env : Env) (fs0 : FS) :
    ∀ d ∈ downloadDests (program pyExe root modelName modelId env fs0).trace,
      d = ARTIFICATS_DIR root ++ ["hf_model"] := by
  intro d hd
  rw [downloadDests, List.mem_filterMap] at hd
  obtain ⟨e, he, hmatch⟩ := hd
  cases h : (moduleInit root fs0).err with
  | some e0 =>
      rw [program_eq_of_err pyExe modelName modelId env h] at he
      simp only [] at he
      rcases moduleInit_events root fs0 e he with rfl | rfl <;> cases hmatch
  | none =>
      rw [program_eq_of_ok pyExe modelName modelId env h] at he
      simp only [List.mem_append] at he
      rcases he with he | he
      · rcases moduleInit_events root fs0 e he with rfl | rfl <;> cases hmatch
      · rcases mainRun_events pyExe root modelName modelId env (moduleInit root fs0).fs e he with
          rfl | rfl | rfl | rfl | rfl | rfl <;> cases hmatch
        rfl

/-! ### Claim theorems -/

/-- C1: for the configured model identifier `Qwen/Qwen2.5-1.5B-Instruct`,
a successful run of the full pipeline produces a final quantized file
named `Qwen2.5-1.5B-Instruct_Q4_K_M.gguf` in the application asset
directory (`ANDROID_ASSETS_DIR`) and an intermediate file with the same
base name under the `artifacts/` directory of the toolchain root. -/
theorem c1_full_pipeline_outputs (pyExe : String) (root : Path) (env : Env) (fs0 : FS)
    (hA : ∀ q ∈ ancestors (ANDROID_ASSETS_DIR root), q ∉ fs0.files)
    (hH : ∀ q ∈ ancestors (hf_dir root), q ∉ fs0.files)
    (hbin : quant_bin root ∈ fs0.dirs ∨ quant_bin root ∈ fs0.files)
    (hscript : hf_to_gguf_convert_script root ∈ fs0.dirs ∨
      hf_to_gguf_convert_script root ∈ fs0.files)
    (hd : env.downloadOk = true) (hc : env.convertExit = 0) (hq : env.quantExit = 0) :
    (quantize_py pyExe root env fs0).err = none ∧
    ANDROID_ASSETS_DIR root ++ ["Qwen2.5-1.5B-Instruct_Q4_K_M.gguf"] ∈
      (quantize_py pyExe root env fs0).fs.files ∧
    ARTIFICATS_DIR root ++ ["Qwen2.5-1.5B-Instruct_Q4_K_M.gguf"] ∈
      (quantize_py pyExe root env fs0).fs.files := by
  have hR : ∀ q ∈ ancestors (ARTIFICATS_DIR root), q ∉ fs0.files :=
    fun q hq2 => hH q (artifacts_ancestors_subset_hf root hq2)
  have hmi := moduleInit_success hA hR hbin
  have hok : (moduleInit root fs0).err = none := by rw [hmi]
  have hhf : ∀ q ∈ ancestors (hf_dir root), q ∉ (moduleInit root fs0).fs.files := by
    rw [hmi]
    exact hH
  have hs : hf_to_gguf_convert_script root ∈ (moduleInit root fs0).fs.dirs ∨
      hf_to_gguf_convert_script root ∈ (moduleInit root fs0).fs.files := by
    rw [hmi]
    rcases hscript with h1 | h1
    · exact Or.inl (List.mem_append.mpr (Or.inr (List.mem_append.mpr (Or.inr h1))))
    · exact Or.inr h1
  have hmr := mainRun_success pyExe MODEL_NAME MODEL_ID hhf hd hs hc hq
  unfold quantize_py
  rw [program_eq_of_ok pyExe MODEL_NAME MODEL_ID env hok, hmr]
  refine ⟨rfl, ?_, ?_⟩
  · have h4 : ANDROID_ASSETS_DIR root ++ ["Qwen2.5-1.5B-Instruct_Q4_K_M.gguf"] =
        GGUF_Q4_MODEL_PATH root MODEL_NAME := rfl
    rw [h4]
    exact List.mem_cons_self _ _
  · have h16 : ARTIFICATS_DIR root ++ ["Qwen2.5-1.5B-Instruct_Q4_K_M.gguf"] =
        GGUF_F16_MODEL_PATH root MODEL_NAME := rfl
    rw [h16]
    exact List.mem_cons.mpr (Or.inr (List.mem_cons_self _ _))

/-- Witness for C1: a concrete run with a complete toolchain and a
fully successful environment. -/
theorem c1_full_pipeline_outputs_witness :
    (quantize_py "python3" wroot okEnv fullFS).err = none ∧
    ANDROID_ASSETS_DIR wroot ++ ["Qwen2.5-1.5B-Instruct_Q4_K_M.gguf"] ∈
      (quantize_py "python3" wroot okEnv fullFS).fs.files ∧
    ARTIFICATS_DIR wroot ++ ["Qwen2.5-1.5B-Instruct_Q4_K_M.gguf"] ∈
      (quantize_py "python3" wroot okEnv fullFS).fs.files :=
  c1_full_pipeline_outputs "python3" wroot okEnv fullFS (by decide) (by decide)
    (by decide) (by decide) rfl rfl rfl

/-- C2 counterexample: in a run whose toolchain directory and quantizer
binary are present but whose converter script is absent, the program
raises the script-missing configuration error having already performed
an external call — the snapshot download.  This refutes the claim that
every configuration error is raised before any external call. -/
theorem c2_script_error_after_download_cex :
    configErr (quantize_py "python3" wroot okEnv noScriptFS).err = true ∧
    (quantize_py "python3" wroot okEnv noScriptFS).err =
      some (PyError.scriptMissing (scriptMissingMsg wroot)) ∧
    (quantize_py "python3" wroot okEnv noScriptFS).trace.filter externalCall =
      [Event.download MODEL_ID (hf_dir wroot)] := by decide

/-- C2 (amended): the toolchain-directory and quantizer-binary
configuration errors are raised before any external call; the
converter-script configuration error is raised before any process is
spawned, but only after the snapshot download has been performed. -/
theorem c2_config_errors_vs_external_calls (pyExe : String) (root : Path)
    (modelName modelId : String) (env : Env) (fs0 : FS) :
    (preflightErr (program pyExe root modelName modelId env fs0).err = true →
      ∀ e ∈ (program pyExe root modelName modelId env fs0).trace, externalCall e = false) ∧
    ((program pyExe root modelName modelId env fs0).err =
        some (PyError.scriptMissing (scriptMissingMsg root)) →
      spawns (program pyExe root modelName modelId env fs0).trace = []) :=
  ⟨preflight_no_external pyExe root modelName modelId env fs0,
   script_err_no_spawn pyExe root modelName modelId env fs0 (scriptMissingMsg root)⟩

/-- Witness for C2 (amended): the preflight part at a run with no
toolchain at all, the script part at a run with the binary but no
converter script. -/
theorem c2_config_errors_vs_external_calls_witness :
    externalCall (Event.mkdirE (ANDROID_ASSETS_DIR wroot)) = false ∧
    spawns (program "python3" wroot MODEL_NAME MODEL_ID okEnv noScriptFS).trace = [] :=
  ⟨(c2_config_errors_vs_external_calls "python3" wroot MODEL_NAME MODEL_ID okEnv bareFS).1
      (by decide) (Event.mkdirE (ANDROID_ASSETS_DIR wroot)) (by decide),
   (c2_config_errors_vs_external_calls "python3" wroot MODEL_NAME MODEL_ID okEnv noScriptFS).2
      (by decide)⟩

/-- C3 counterexample: at a filesystem in which the toolchain root does
not exist, the run does not abort with the configuration error naming
the missing toolchain root (line 41): the asset-directory `mkdir` of
line 36 has already created the root, so the run aborts with the
binary-missing error instead — and the final state even contains the
toolchain root as a directory. -/
theorem c3_missing_root_not_reported_cex :
    LLAMA_CPP_DIR wroot ∉ bareFS.dirs ∧ LLAMA_CPP_DIR wroot ∉ bareFS.files ∧
    isDirMissing (quantize_py "python3" wroot okEnv bareFS).err = false ∧
    (quantize_py "python3" wroot okEnv bareFS).err =
      some (PyError.binMissing (binMissingMsg wroot)) ∧
    LLAMA_CPP_DIR wroot ∈ (quantize_py "python3" wroot okEnv bareFS).fs.dirs := by decide

/-- C3 (amended): if the quantizer binary does not exist, the preflight
aborts the run with the binary-missing configuration error, whose
message contains the build command the operator should run, and no
pipeline stage executes (no external call is made).  A missing toolchain
root is never reported: the module-load `mkdir` creates it, so such runs
abort through the binary check instead. -/
theorem c3_preflight_binary_abort (pyExe : String) (root : Path) (env : Env) (fs0 : FS)
    (hA : ∀ q ∈ ancestors (ANDROID_ASSETS_DIR root), q ∉ fs0.files)
    (hbD : quant_bin root ∉ fs0.dirs) (hbF : quant_bin root ∉ fs0.files) :
    (quantize_py pyExe root env fs0).err = some (PyError.binMissing (binMissingMsg root)) ∧
    binMissingMsg root =
      "llama-quantize binary not found. Build llama.cpp (`cd " ++
        strPath (LLAMA_CPP_DIR root) ++
        " && cmake -B build && cmake --build build --config Release`)." ∧
    (∀ e ∈ (quantize_py pyExe root env fs0).trace, externalCall e = false) ∧
    LLAMA_CPP_DIR root ∈ (quantize_py pyExe root env fs0).fs.dirs := by
  have hmi := moduleInit_binMissing hA hbD hbF
  have h : (moduleInit root fs0).err = some (PyError.binMissing (binMissingMsg root)) := by
    rw [hmi]
  unfold quantize_py
  rw [program_eq_of_err pyExe MODEL_NAME MODEL_ID env h, hmi]
  refine ⟨rfl, rfl, ?_, ?_⟩
  · intro e he
    simp only [List.mem_singleton] at he
    rw [he]
    rfl
  · exact List.mem_append.mpr (Or.inl (llama_mem_ancestors_assets root))

/-- Witness for C3 (amended): the empty toolchain. -/
theorem c3_preflight_binary_abort_witness :
    (quantize_py "python3" wroot okEnv bareFS).err =
      some (PyError.binMissing (binMissingMsg wroot)) ∧
    binMissingMsg wroot =
      "llama-quantize binary not found. Build llama.cpp (`cd " ++
        strPath (LLAMA_CPP_DIR wroot) ++
        " && cmake -B build && cmake --build build --config Release`)." ∧
    externalCall (Event.mkdirE (ANDROID_ASSETS_DIR wroot)) = false ∧
    LLAMA_CPP_DIR wroot ∈ (quantize_py "python3" wroot okEnv bareFS).fs.dirs := by
  obtain ⟨h1, h2, h3, h4⟩ :=
    c3_preflight_binary_abort "python3" wroot okEnv bareFS (by decide) (by decide) (by decide)
  exact ⟨h1, h2, h3 (Event.mkdirE (ANDROID_ASSETS_DIR wroot)) (by decide), h4⟩

/-- C4: the command runner logs the exact (space-joined) command line
before the spawn event, succeeds exactly when the process exits with
status 0, and a non-zero converter exit aborts the pipeline — the
quantizer is never spawned in that case. -/
theorem c4_run_logs_and_aborts (cmd : List String) (exitStatus : Nat)
    (pyExe : String) (root : Path) (modelName modelId : String) (env : Env) (fs0 : FS) :
    (runCmd exitStatus cmd).1 =
      [Event.log ("[RUN] " ++ String.intercalate " " cmd), Event.spawn cmd] ∧
    ((runCmd exitStatus cmd).2 = none ↔ exitStatus = 0) ∧
    (env.convertExit ≠ 0 →
      Event.spawn (cmd_quant root modelName) ∉
        (program pyExe root modelName modelId env fs0).trace) := by
  refine ⟨rfl, ?_, ?_⟩
  · unfold runCmd
    by_cases h0 : exitStatus = 0 <;> simp [h0]
  · intro hc he
    cases h : (moduleInit root fs0).err with
    | some e0 =>
        rw [program_eq_of_err pyExe modelName modelId env h] at he
        simp only [] at he
        rcases moduleInit_events root fs0 _ he with h1 | h1 <;> cases h1
    | none =>
        rw [program_eq_of_ok pyExe modelName modelId env h] at he
        simp only [List.mem_append] at he
        rcases he with he | he
        · rcases moduleInit_events root fs0 _ he with h1 | h1 <;> cases h1
        · rcases mainRun_cases pyExe root modelName modelId env (moduleInit root fs0).fs with
            hmr | ⟨hmr, _⟩ | ⟨hmr, _⟩ | ⟨hmr, _, _⟩ | ⟨hmr, _, hc2, _⟩ | ⟨hmr, _, hc2, _⟩
          · rw [hmr] at he; simp at he
          · rw [hmr] at he; simp at he
          · rw [hmr] at he; simp at he
          · rw [hmr] at he; simp [cmd_quant, cmd_convert] at he
          · exact hc hc2
          · exact hc hc2

/-- Witness for C4: a failing command and the converter-failure
environment. -/
theorem c4_run_logs_and_aborts_witness :
    (runCmd 1 ["echo", "hi"]).1 =
      [Event.log ("[RUN] " ++ String.intercalate " " ["echo", "hi"]),
       Event.spawn ["echo", "hi"]] ∧
    ((runCmd 1 ["echo", "hi"]).2 = none ↔ (1 : Nat) = 0) ∧
    Event.spawn (cmd_quant wroot MODEL_NAME) ∉
      (program "python3" wroot MODEL_NAME MODEL_ID convFailEnv fullFS).trace := by
  obtain ⟨h1, h2, h3⟩ :=
    c4_run_logs_and_aborts ["echo", "hi"] 1 "python3" wroot MODEL_NAME MODEL_ID convFailEnv fullFS
  exact ⟨h1, h2, h3 (by decide)⟩

/-- C5: the converter is invoked as
`<interpreter> <converter-script> <snapshot-dir> --outfile <path>
--outtype f16`, the quantizer as
`<quantizer-binary> <input-f16-path> <output-path> Q4_K_M`, and every
run spawns a prefix of exactly this two-command sequence. -/
theorem c5_exact_argument_lists (pyExe : String) (root : Path) (modelName modelId : String)
    (env : Env) (fs0 : FS) :
    cmd_convert pyExe root modelName =
      [pyExe, strPath (hf_to_gguf_convert_script root), strPath (hf_dir root),
       "--outfile", strPath (GGUF_F16_MODEL_PATH root modelName), "--outtype", "f16"] ∧
    cmd_quant root modelName =
      [strPath (quant_bin root), strPath (GGUF_F16_MODEL_PATH root modelName),
       strPath (GGUF_Q4_MODEL_PATH root modelName), "Q4_K_M"] ∧
    (spawns (program pyExe root modelName modelId env fs0).trace = [] ∨
     spawns (program pyExe root modelName modelId env fs0).trace =
       [cmd_convert pyExe root modelName] ∨
     spawns (program pyExe root modelName modelId env fs0).trace =
       [cmd_convert pyExe root modelName, cmd_quant root modelName]) := by
  refine ⟨rfl, rfl, ?_⟩
  cases h : (moduleInit root fs0).err with
  | some e0 =>
      rw [program_eq_of_err pyExe modelName modelId env h]
      left
      exact moduleInit_spawns root fs0
  | none =>
      rw [program_eq_of_ok pyExe modelName modelId env h]
      simp only []
      rw [spawns_append, moduleInit_spawns]
      rcases mainRun_cases pyExe root modelName modelId env (moduleInit root fs0).fs with
        hmr | ⟨hmr, _⟩ | ⟨hmr, _⟩ | ⟨hmr, _⟩ | ⟨hmr, _⟩ | ⟨hmr, _⟩ <;> rw [hmr] <;>
        simp [spawns]

/-- The module preamble only grows the filesystem, and the directories
it adds are the initial segments of the asset and artifacts paths. -/
lemma moduleInit_frame (root : Path) (fs0 : FS) :
    (moduleInit root fs0).fs.files = fs0.files ∧
    (∀ p ∈ fs0.dirs, p ∈ (moduleInit root fs0).fs.dirs) ∧
    (∀ p, p ∈ (moduleInit root fs0).fs.dirs → p ∉ fs0.dirs →
      p ∈ ancestors (ANDROID_ASSETS_DIR root) ∨ p ∈ ancestors (ARTIFICATS_DIR root)) := by
  rcases moduleInit_cases root fs0 with hmi | hmi | hmi | hmi <;> rw [hmi]
  · exact ⟨rfl, fun p hp => hp, fun p hp hnp => absurd hp hnp⟩
  · refine ⟨rfl, fun p hp => List.mem_append.mpr (Or.inr hp), fun p hp hnp => ?_⟩
    rcases List.mem_append.mp hp with h1 | h1
    · exact Or.inl h1
    · exact absurd h1 hnp
  · refine ⟨rfl, fun p hp => List.mem_append.mpr (Or.inr hp), fun p hp hnp => ?_⟩
    rcases List.mem_append.mp hp with h1 | h1
    · exact Or.inl h1
    · exact absurd h1 hnp
  · refine ⟨rfl, fun p hp => List.mem_append.mpr (Or.inr (List.mem_append.mpr (Or.inr hp))),
      fun p hp hnp => ?_⟩
    rcases List.mem_append.mp hp with h1 | h1
    · exact Or.inr h1
    · rcases List.mem_append.mp h1 with h2 | h2
      · exact Or.inl h2
      · exact absurd h2 hnp

/-- `main()` only grows the filesystem: the directories it adds are
initial segments of the snapshot path, the files it adds are the two
model output files and the snapshot files the download writes. -/
lemma mainRun_frame (pyExe : String) (root : Path) (modelName modelId : String)
    (env : Env) (fs : FS) :
    (∀ p ∈ fs.dirs, p ∈ (mainRun pyExe root modelName modelId env fs).fs.dirs) ∧
    (∀ p ∈ fs.files, p ∈ (mainRun pyExe root modelName modelId env fs).fs.files) ∧
    (∀ p, p ∈ (mainRun pyExe root modelName modelId env fs).fs.dirs → p ∉ fs.dirs →
      p ∈ ancestors (hf_dir root)) ∧
    (∀ p, p ∈ (mainRun pyExe root modelName modelId env fs).fs.files → p ∉ fs.files →
      p = GGUF_F16_MODEL_PATH root modelName ∨ p = GGUF_Q4_MODEL_PATH root modelName ∨
      p ∈ env.snapshotFiles.map (fun r => hf_dir root ++ r)) := by
  rcases mainRun_cases pyExe root modelName modelId env fs with
    hmr | ⟨hmr, _⟩ | ⟨hmr, _⟩ | ⟨hmr, _⟩ | ⟨hmr, _⟩ | ⟨hmr, _⟩ <;> rw [hmr] <;>
    refine ⟨?_, ?_, ?_, ?_⟩ <;> intro p hp <;> try intro hnp
  all_goals
    simp only [List.mem_append, List.mem_cons] at hp ⊢
  all_goals tauto

/-- C6 counterexample: a successful run creates the `artifacts`
directory, a proper descendant of the toolchain root, and writes the
intermediate model file under it — the toolchain root is not read-only
to this system. -/
theorem c6_toolchain_root_written_cex :
    strictlyUnder (LLAMA_CPP_DIR wroot) (ARTIFICATS_DIR wroot) ∧
    ARTIFICATS_DIR wroot ∉ fullFS.dirs ∧
    ARTIFICATS_DIR wroot ∈ (quantize_py "python3" wroot okEnv fullFS).fs.dirs ∧
    strictlyUnder (LLAMA_CPP_DIR wroot) (GGUF_F16_MODEL_PATH wroot MODEL_NAME) ∧
    GGUF_F16_MODEL_PATH wroot MODEL_NAME ∉ fullFS.files ∧
    GGUF_F16_MODEL_PATH wroot MODEL_NAME ∈
      (quantize_py "python3" wroot okEnv fullFS).fs.files := by decide

/-- C6 (amended): the pipeline never deletes or replaces an existing
directory or file — the initial filesystem is preserved — but it is not
read-only over the toolchain root: every directory it creates is an
initial segment of the asset or snapshot path (both under the toolchain
root), and every file it creates is one of the two model output files
or a snapshot file the download writes into `artifacts/hf_model`. -/
theorem c6_toolchain_root_frame (pyExe : String) (root : Path) (modelName modelId : String)
    (env : Env) (fs0 : FS) :
    (∀ p ∈ fs0.dirs, p ∈ (program pyExe root modelName modelId env fs0).fs.dirs) ∧
    (∀ p ∈ fs0.files, p ∈ (program pyExe root modelName modelId env fs0).fs.files) ∧
    (∀ p, p ∈ (program pyExe root modelName modelId env fs0).fs.dirs → p ∉ fs0.dirs →
      p ∈ ancestors (ANDROID_ASSETS_DIR root) ∨ p ∈ ancestors (hf_dir root)) ∧
    (∀ p, p ∈ (program pyExe root modelName modelId env fs0).fs.files → p ∉ fs0.files →
      p = GGUF_F16_MODEL_PATH root modelName ∨ p = GGUF_Q4_MODEL_PATH root modelName ∨
      p ∈ env.snapshotFiles.map (fun r => hf_dir root ++ r)) := by
  obtain ⟨hf, hd, hnew⟩ := moduleInit_frame root fs0
  cases h : (moduleInit root fs0).err with
  | some e0 =>
      rw [program_eq_of_err pyExe modelName modelId env h]
      refine ⟨hd, ?_, ?_, ?_⟩
      · intro p hp
        rw [hf]
        exact hp
      · intro p hp hnp
        rcases hnew p hp hnp with h1 | h1
        · exact Or.inl h1
        · exact Or.inr (artifacts_ancestors_subset_hf root h1)
      · intro p hp hnp
        rw [hf] at hp
        exact absurd hp hnp
  | none =>
      rw [program_eq_of_ok pyExe modelName modelId env h]
      obtain ⟨md, mf, mnd, mnf⟩ :=
        mainRun_frame pyExe root modelName modelId env (moduleInit root fs0).fs
      refine ⟨fun p hp => md p (hd p hp), ?_, ?_, ?_⟩
      · intro p hp
        refine mf p ?_
        rw [hf]
        exact hp
      · intro p hp hnp
        by_cases hmid : p ∈ (moduleInit root fs0).fs.dirs
        · rcases hnew p hmid hnp with h1 | h1
          · exact Or.inl h1
          · exact Or.inr (artifacts_ancestors_subset_hf root h1)
        · exact Or.inr (mnd p hp hmid)
      · intro p hp hnp
        refine mnf p hp ?_
        rw [hf]
        exact hnp

/-- Witness for C6 (amended): concrete instantiations of each part on a
successful run, exercising the snapshot-file case with the downloaded
`config.json`. -/
theorem c6_toolchain_root_frame_witness :
    wroot ∈ (program "python3" wroot MODEL_NAME MODEL_ID okEnv fullFS).fs.dirs ∧
    quant_bin wroot ∈ (program "python3" wroot MODEL_NAME MODEL_ID okEnv fullFS).fs.files ∧
    (ARTIFICATS_DIR wroot ∈ ancestors (ANDROID_ASSETS_DIR wroot) ∨
      ARTIFICATS_DIR wroot ∈ ancestors (hf_dir wroot)) ∧
    (hf_dir wroot ++ ["config.json"] = GGUF_F16_MODEL_PATH wroot MODEL_NAME ∨
      hf_dir wroot ++ ["config.json"] = GGUF_Q4_MODEL_PATH wroot MODEL_NAME ∨
      hf_dir wroot ++ ["config.json"] ∈
        okEnv.snapshotFiles.map (fun r => hf_dir wroot ++ r)) := by
  obtain ⟨h1, h2, h3, h4⟩ :=
    c6_toolchain_root_frame "python3" wroot MODEL_NAME MODEL_ID okEnv fullFS
  exact ⟨h1 wroot (by decide), h2 (quant_bin wroot) (by decide),
    h3 (ARTIFICATS_DIR wroot) (by decide) (by decide),
    h4 (hf_dir wroot ++ ["config.json"]) (by decide) (by decide)⟩

/-- C7 counterexample: when the converter exits with status 2, the
interpreter terminates with exit status 1 — the non-zero exit code is
the uncaught-exception status, not the failing process's own status. -/
theorem c7_exit_code_not_child_status_cex :
    (quantize_py "python3" wroot convFailEnv fullFS).err =
      some (PyError.calledProcessError (cmd_convert "python3" wroot MODEL_NAME) 2) ∧
    exitCode (quantize_py "python3" wroot convFailEnv fullFS) = 1 ∧
    (1 : Nat) ≠ 2 := by decide

/-- C7 (amended): with a complete toolchain, the process exit code is 0
exactly when every stage succeeds, and any failure terminates the
process with exit code 1 (the interpreter's uncaught-exception status,
with the failing command and its status carried in the error, not in
the exit code). -/
theorem c7_exit_code_zero_iff_success (pyExe : String) (root : Path) (env : Env) (fs0 : FS)
    (hA : ∀ q ∈ ancestors (ANDROID_ASSETS_DIR root), q ∉ fs0.files)
    (hH : ∀ q ∈ ancestors (hf_dir root), q ∉ fs0.files)
    (hbin : quant_bin root ∈ fs0.dirs ∨ quant_bin root ∈ fs0.files)
    (hscript : hf_to_gguf_convert_script root ∈ fs0.dirs ∨
      hf_to_gguf_convert_script root ∈ fs0.files) :
    (exitCode (quantize_py pyExe root env fs0) = 0 ↔
      env.downloadOk = true ∧ env.convertExit = 0 ∧ env.quantExit = 0) ∧
    (exitCode (quantize_py pyExe root env fs0) = 0 ∨
      exitCode (quantize_py pyExe root env fs0) = 1) := by
  have hR : ∀ q ∈ ancestors (ARTIFICATS_DIR root), q ∉ fs0.files :=
    fun q hq2 => hH q (artifacts_ancestors_subset_hf root hq2)
  have hmi := moduleInit_success hA hR hbin
  have hok : (moduleInit root fs0).err = none := by rw [hmi]
  have hhf : ∀ q ∈ ancestors (hf_dir root), q ∉ (moduleInit root fs0).fs.files := by
    rw [hmi]
    exact hH
  have hs : hf_to_gguf_convert_script root ∈ (moduleInit root fs0).fs.dirs ∨
      hf_to_gguf_convert_script root ∈ (moduleInit root fs0).fs.files := by
    rw [hmi]
    rcases hscript with h1 | h1
    · exact Or.inl (List.mem_append.mpr (Or.inr (List.mem_append.mpr (Or.inr h1))))
    · exact Or.inr h1
  unfold quantize_py
  rw [program_eq_of_ok pyExe MODEL_NAME MODEL_ID env hok]
  cases hdb : env.downloadOk with
  | false =>
      rw [mainRun_downloadFail pyExe MODEL_NAME MODEL_ID hhf hdb]
      exact ⟨by simp [exitCode, hdb], Or.inr rfl⟩
  | true =>
      by_cases hc : env.convertExit = 0
      · by_cases hq : env.quantExit = 0
        · rw [mainRun_success pyExe MODEL_NAME MODEL_ID hhf hdb hs hc hq]
          exact ⟨by simp [exitCode, hdb, hc, hq], Or.inl rfl⟩
        · rw [mainRun_quantFail pyExe MODEL_NAME MODEL_ID hhf hdb hs hc hq]
          exact ⟨by simp [exitCode, hq], Or.inr rfl⟩
      · rw [mainRun_convertFail pyExe MODEL_NAME MODEL_ID hhf hdb hs hc]
        exact ⟨by simp [exitCode, hc], Or.inr rfl⟩

/-- Witness for C7 (amended): the all-success environment over the
complete toolchain. -/
theorem c7_exit_code_zero_iff_success_witness :
    (exitCode (quantize_py "python3" wroot okEnv fullFS) = 0 ↔
      okEnv.downloadOk = true ∧ okEnv.convertExit = 0 ∧ okEnv.quantExit = 0) ∧
    (exitCode (quantize_py "python3" wroot okEnv fullFS) = 0 ∨
      exitCode (quantize_py "python3" wroot okEnv fullFS) = 1) :=
  c7_exit_code_zero_iff_success "python3" wroot okEnv fullFS (by decide) (by decide)
    (by decide) (by decide)

/-- C8: every event of every run mentions only the paths fixed by the
configuration — the asset, artifacts and snapshot directories and the
two command lines built from the model identifier and the directory
layout; no stage ever uses a dynamically discovered or renamed path. -/
theorem c8_paths_fixed_before_stages (pyExe : String) (root : Path) (modelName modelId : String)
    (env : Env) (fs0 : FS) :
    ∀ e ∈ (program pyExe root modelName modelId env fs0).trace,
      e = Event.mkdirE (ANDROID_ASSETS_DIR root) ∨
      e = Event.mkdirE (ARTIFICATS_DIR root) ∨
      e = Event.mkdirE (hf_dir root) ∨
      e = Event.download modelId (hf_dir root) ∨
      e = Event.log ("[RUN] " ++ String.intercalate " " (cmd_convert pyExe root modelName)) ∨
      e = Event.spawn (cmd_convert pyExe root modelName) ∨
      e = Event.log ("[RUN] " ++ String.intercalate " " (cmd_quant root modelName)) ∨
      e = Event.spawn (cmd_quant root modelName) := by
  intro e he
  cases h : (moduleInit root fs0).err with
  | some e0 =>
      rw [program_eq_of_err pyExe modelName modelId env h] at he
      rcases moduleInit_events root fs0 e he with rfl | rfl <;> tauto
  | none =>
      rw [program_eq_of_ok pyExe modelName modelId env h] at he
      simp only [List.mem_append] at he
      rcases he with he | he
      · rcases moduleInit_events root fs0 e he with rfl | rfl <;> tauto
      · rcases mainRun_events pyExe root modelName modelId env (moduleInit root fs0).fs e he with
          rfl | rfl | rfl | rfl | rfl | rfl <;> tauto

/-- Witness for C8: the download event of a successful concrete run. -/
theorem c8_paths_fixed_before_stages_witness :
    Event.download MODEL_ID (hf_dir wroot) = Event.mkdirE (ANDROID_ASSETS_DIR wroot) ∨
    Event.download MODEL_ID (hf_dir wroot) = Event.mkdirE (ARTIFICATS_DIR wroot) ∨
    Event.download MODEL_ID (hf_dir wroot) = Event.mkdirE (hf_dir wroot) ∨
    Event.download MODEL_ID (hf_dir wroot) = Event.download MODEL_ID (hf_dir wroot) ∨
    Event.download MODEL_ID (hf_dir wroot) =
      Event.log ("[RUN] " ++ String.intercalate " " (cmd_convert "python3" wroot MODEL_NAME)) ∨
    Event.download MODEL_ID (hf_dir wroot) = Event.spawn (cmd_convert "python3" wroot MODEL_NAME) ∨
    Event.download MODEL_ID (hf_dir wroot) =
      Event.log ("[RUN] " ++ String.intercalate " " (cmd_quant wroot MODEL_NAME)) ∨
    Event.download MODEL_ID (hf_dir wroot) = Event.spawn (cmd_quant wroot MODEL_NAME) :=
  c8_paths_fixed_before_stages "python3" wroot MODEL_NAME MODEL_ID okEnv fullFS
    (Event.download MODEL_ID (hf_dir wroot)) (by decide)

/-- C9: the application asset directory is created at module load,
before the preflight checks run: on every run that fails preflight the
asset directory is nevertheless present in the final filesystem, so the
filesystem is not unchanged on a configuration error. -/
theorem c9_assets_dir_created_before_preflight (pyExe : String) (root : Path)
    (env : Env) (fs0 : FS)
    (hp : preflightErr (quantize_py pyExe root env fs0).err = true) :
    ANDROID_ASSETS_DIR root ∈ (quantize_py pyExe root env fs0).fs.dirs ∧
    (ANDROID_ASSETS_DIR root ∉ fs0.dirs → (quantize_py pyExe root env fs0).fs ≠ fs0) := by
  have hmem : ANDROID_ASSETS_DIR root ∈ (quantize_py pyExe root env fs0).fs.dirs := by
    unfold quantize_py at hp ⊢
    cases h : (moduleInit root fs0).err with
    | none =>
        exfalso
        rw [program_eq_of_ok pyExe MODEL_NAME MODEL_ID env h] at hp
        simp only [] at hp
        rw [mainRun_err_not_preflight pyExe root MODEL_NAME MODEL_ID env
          (moduleInit root fs0).fs] at hp
        cases hp
    | some e0 =>
        rw [program_eq_of_err pyExe MODEL_NAME MODEL_ID env h] at hp ⊢
        simp only [] at hp ⊢
        rcases moduleInit_cases root fs0 with hmi | hmi | hmi | hmi <;> rw [hmi] at h <;>
          simp only [] at h
        · cases h
          simp [preflightErr] at hp
        · rw [hmi]
          exact List.mem_append.mpr (Or.inl (self_mem_ancestors (assets_ne_nil root)))
        · cases h
          simp [preflightErr] at hp
        · cases h
  refine ⟨hmem, fun hn heq => ?_⟩
  rw [heq] at hmem
  exact hn hmem

/-- Witness for C9: the empty toolchain, whose run fails the binary
preflight check. -/
theorem c9_assets_dir_created_before_preflight_witness :
    ANDROID_ASSETS_DIR wroot ∈ (quantize_py "python3" wroot okEnv bareFS).fs.dirs ∧
    (ANDROID_ASSETS_DIR wroot ∉ bareFS.dirs →
      (quantize_py "python3" wroot okEnv bareFS).fs ≠ bareFS) :=
  c9_assets_dir_created_before_preflight "python3" wroot okEnv bareFS (by decide)

/-- C10: the snapshot destination is the fixed directory
`artifacts/hf_model`, independent of the configured model identifier:
any two runs, however configured, download into that same directory. -/
theorem c10_snapshot_dir_model_independent (pyExe : String) (root : Path)
    (modelNameA modelIdA modelNameB modelIdB : String) (envA envB : Env) (fsA fsB : FS) :
    hf_dir root = ARTIFICATS_DIR root ++ ["hf_model"] ∧
    (∀ d ∈ downloadDests (program pyExe root modelNameA modelIdA envA fsA).trace,
      d = ARTIFICATS_DIR root ++ ["hf_model"]) ∧
    (∀ d ∈ downloadDests (program pyExe root modelNameB modelIdB envB fsB).trace,
      d = ARTIFICATS_DIR root ++ ["hf_model"]) :=
  ⟨rfl, program_downloadDests pyExe root modelNameA modelIdA envA fsA,
   program_downloadDests pyExe root modelNameB modelIdB envB fsB⟩

/-- Witness for C10: two runs configured with different model
identifiers download into the same concrete directory. -/
theorem c10_snapshot_dir_model_independent_witness :
    hf_dir wroot = ARTIFICATS_DIR wroot ++ ["hf_model"] ∧
    (ARTIFICATS_DIR wroot ++ ["hf_model"] : Path) = ARTIFICATS_DIR wroot ++ ["hf_model"] := by
  obtain ⟨h1, h2, h3⟩ := c10_snapshot_dir_model_independent "python3" wroot
    "Llama-3.2-1B-Instruct" "unsloth/Llama-3.2-1B-Instruct"
    "Qwen2.5-1.5B-Instruct" "Qwen/Qwen2.5-1.5B-Instruct" okEnv okEnv fullFS fullFS
  exact ⟨h1, h2 (ARTIFICATS_DIR wroot ++ ["hf_model"]) (by decide)⟩

end Quantize
